import Mathlib

/-!
Verification of the `picker2` controller (`crates/picker2/src/picker2.rs`).

The controller is embedded as a trace-producing state machine.  Every
observable effect of a controller operation — each call into the delegate,
each scroll request sent to the virtualized list, each write to the
`pending_update_matches` slot, each re-render notification — is recorded as
an `Event` in the order the source performs it, so that "calls X exactly
once", "does not read Y" and "A happens before B" become statements about
the emitted trace.

The delegate is opaque to the controller, so it is modelled as a record of
functions over an abstract delegate state `σ`, mirroring the
`PickerDelegate` trait.  The asynchronous task returned by
`Delegate::update_matches` is modelled by a task registry on a surrounding
`PickerSystem`: `Picker.update_matches` registers a task id, and a
separate `resolve_task` step runs the spawned continuation
(`update.await; this.update(...)`), including the liveness probe that
silently discards the continuation when the view has been dropped.
-/

namespace Picker2

/-- Observable effects of a controller operation, in program order. -/
inductive Event where
  /-- `self.delegate.match_count()` -/
  | readMatchCount
  /-- `self.delegate.selected_index()` -/
  | readSelectedIndex
  /-- `self.delegate.set_selected_index(ix, cx)` -/
  | setSelectedIndex (ix : Nat)
  /-- `self.scroll_handle.scroll_to_item(ix)` -/
  | scrollToItem (ix : Nat)
  /-- `self.delegate.update_matches(query, cx)` -/
  | delegateUpdateMatches (query : String)
  /-- `self.delegate.confirm(secondary, cx)` -/
  | delegateConfirm (secondary : Bool)
  /-- `self.delegate.dismissed(cx)` -/
  | delegateDismissed
  /-- `self.pending_update_matches = None` -/
  | clearPending
  /-- `self.pending_update_matches = Some(task)`, tagged with the task id -/
  | registerPending (tid : Nat)
  /-- `cx.notify()` -/
  | notify
  deriving DecidableEq, Repr

/-- The `PickerDelegate` trait, as a record of functions over an abstract
delegate state `σ`.  `update_matches` is split into the state change the
delegate performs when the call is issued (`start_update_matches`) and the
state change it has performed by the time its returned task resolves
(`finish_update_matches`); the delegate updates its own matches at its own
pace, so both are arbitrary. -/
structure PickerDelegate (σ : Type) where
  match_count : σ → Nat
  selected_index : σ → Nat
  set_selected_index : σ → Nat → σ
  start_update_matches : σ → String → σ
  finish_update_matches : σ → String → σ
  confirm : σ → Bool → σ
  dismissed : σ → σ

/-- Controller-owned state of `struct Picker`.  The scroll handle is
write-only from the controller side (its writes appear as `scrollToItem`
events); the editor is an external collaborator, so neither is part of the
state.  `pending_update_matches` holds the id of the tracked task. -/
structure Picker (σ : Type) where
  delegate : σ
  pending_update_matches : Option Nat
  deriving DecidableEq, Repr

/-- `Picker::new`: fresh controller with no pending update. -/
def Picker.new (d : σ) : Picker σ :=
  { delegate := d, pending_update_matches := none }

variable {σ : Type}

/-- `Picker::select_next`. -/
def select_next (D : PickerDelegate σ) (p : Picker σ) : Picker σ × List Event :=
  let count := D.match_count p.delegate
  if count > 0 then
    let index := D.selected_index p.delegate
    let ix := min (index + 1) (count - 1)
    ({ p with delegate := D.set_selected_index p.delegate ix },
     [Event.readMatchCount, Event.readSelectedIndex,
      Event.setSelectedIndex ix, Event.scrollToItem ix])
  else
    (p, [Event.readMatchCount])

/-- `Picker::select_prev`; `index.saturating_sub(1)` is `Nat` subtraction. -/
def select_prev (D : PickerDelegate σ) (p : Picker σ) : Picker σ × List Event :=
  let count := D.match_count p.delegate
  if count > 0 then
    let index := D.selected_index p.delegate
    let ix := index - 1
    ({ p with delegate := D.set_selected_index p.delegate ix },
     [Event.readMatchCount, Event.readSelectedIndex,
      Event.setSelectedIndex ix, Event.scrollToItem ix])
  else
    (p, [Event.readMatchCount])

/-- `Picker::select_first`. -/
def select_first (D : PickerDelegate σ) (p : Picker σ) : Picker σ × List Event :=
  let count := D.match_count p.delegate
  if count > 0 then
    ({ p with delegate := D.set_selected_index p.delegate 0 },
     [Event.readMatchCount, Event.setSelectedIndex 0, Event.scrollToItem 0])
  else
    (p, [Event.readMatchCount])

/-- `Picker::select_last`. -/
def select_last (D : PickerDelegate σ) (p : Picker σ) : Picker σ × List Event :=
  let count := D.match_count p.delegate
  if count > 0 then
    ({ p with delegate := D.set_selected_index p.delegate (count - 1) },
     [Event.readMatchCount, Event.setSelectedIndex (count - 1),
      Event.scrollToItem (count - 1)])
  else
    (p, [Event.readMatchCount])

/-- `Picker::cancel`: forwards to `Delegate::dismissed`. -/
def cancel (D : PickerDelegate σ) (p : Picker σ) : Picker σ × List Event :=
  ({ p with delegate := D.dismissed p.delegate }, [Event.delegateDismissed])

/-- `Picker::confirm`: forwards to `Delegate::confirm(false, cx)`. -/
def confirm (D : PickerDelegate σ) (p : Picker σ) : Picker σ × List Event :=
  ({ p with delegate := D.confirm p.delegate false }, [Event.delegateConfirm false])

/-- `Picker::secondary_confirm`: forwards to `Delegate::confirm(true, cx)`. -/
def secondary_confirm (D : PickerDelegate σ) (p : Picker σ) : Picker σ × List Event :=
  ({ p with delegate := D.confirm p.delegate true }, [Event.delegateConfirm true])

/-- `Picker::matches_updated`: read the selected index, scroll to it,
clear the pending slot, request a re-render. -/
def matches_updated (D : PickerDelegate σ) (p : Picker σ) : Picker σ × List Event :=
  let index := D.selected_index p.delegate
  ({ p with pending_update_matches := none },
   [Event.readSelectedIndex, Event.scrollToItem index, Event.clearPending, Event.notify])

/-- The controller together with the cooperative scheduler's view of it:
`picker = none` models the view having been dropped; `tasks` holds the
in-flight `update_matches` tasks (id, query) whose continuations have not
yet run; `next_task_id` generates fresh ids. -/
structure PickerSystem (σ : Type) where
  picker : Option (Picker σ)
  tasks : List (Nat × String)
  next_task_id : Nat

/-- A freshly opened picker: live, no in-flight tasks. -/
def PickerSystem.init (d : σ) : PickerSystem σ :=
  { picker := some (Picker.new d), tasks := [], next_task_id := 0 }

/-- Dropping the view (the dialog is closed): in-flight tasks survive. -/
def PickerSystem.destroy (sys : PickerSystem σ) : PickerSystem σ :=
  { sys with picker := none }

/-- `Picker::update_matches` (the synchronous portion): call
`delegate.update_matches(query, cx)`, run `matches_updated` synchronously,
then store the spawned task in `pending_update_matches`.  A dropped view
cannot receive the call, so the `none` branch is inert. -/
def update_matches (D : PickerDelegate σ) (sys : PickerSystem σ) (query : String) :
    PickerSystem σ × List Event :=
  match sys.picker with
  | none => (sys, [])
  | some p =>
    let d1 := D.start_update_matches p.delegate query
    let tid := sys.next_task_id
    let pe := matches_updated D { p with delegate := d1 }
    let p2 := { pe.1 with pending_update_matches := some tid }
    ({ picker := some p2,
       tasks := (tid, query) :: sys.tasks,
       next_task_id := tid + 1 },
     Event.delegateUpdateMatches query :: pe.2 ++ [Event.registerPending tid])

/-- One scheduler step resolving in-flight task `tid`: the delegate's task
completes (`update.await`, applying `finish_update_matches`), then the
spawned continuation runs `this.update(&mut cx, |this, cx| this.matches_updated(cx)).ok()`:
if the view is still live it runs `matches_updated`, otherwise the
continuation is discarded (`.ok()`) with no effect.  `none` means no task
with this id is in flight, so no step is possible. -/
def resolve_task (D : PickerDelegate σ) (sys : PickerSystem σ) (tid : Nat) :
    Option (PickerSystem σ × List Event) :=
  match sys.tasks.find? (fun t => t.1 == tid) with
  | none => none
  | some tq =>
    let remaining := sys.tasks.filter (fun t => t.1 != tid)
    match sys.picker with
    | none => some ({ sys with tasks := remaining }, [])
    | some p =>
      let d1 := D.finish_update_matches p.delegate tq.2
      let pe := matches_updated D { p with delegate := d1 }
      some ({ sys with picker := some pe.1, tasks := remaining }, pe.2)

/-- Number of `setSelectedIndex` calls (to any index) in a trace. -/
def numSetSelected (ev : List Event) : Nat :=
  (ev.filter fun e => match e with | Event.setSelectedIndex _ => true | _ => false).length

/-- Number of scroll requests (to any index) in a trace. -/
def numScroll (ev : List Event) : Nat :=
  (ev.filter fun e => match e with | Event.scrollToItem _ => true | _ => false).length

/-- Number of re-render notifications (refresh cycles) in a trace. -/
def numNotify (ev : List Event) : Nat :=
  (ev.filter fun e => match e with | Event.notify => true | _ => false).length

/-- Number of `setSelectedIndex ix` calls (to this index) in a trace. -/
def numSetTo (ev : List Event) (ix : Nat) : Nat :=
  (ev.filter fun e => match e with
    | Event.setSelectedIndex j => j == ix | _ => false).length

/-- Number of scroll requests to index `ix` in a trace. -/
def numScrollTo (ev : List Event) (ix : Nat) : Nat :=
  (ev.filter fun e => match e with
    | Event.scrollToItem j => j == ix | _ => false).length

/-- The trace performs exactly one selection change, to `ix`, and exactly
one scroll request, to `ix`. -/
def navEffects (ev : List Event) (ix : Nat) : Prop :=
  numSetSelected ev = 1 ∧ numSetTo ev ix = 1 ∧
  numScroll ev = 1 ∧ numScrollTo ev ix = 1

instance (ev : List Event) (ix : Nat) : Decidable (navEffects ev ix) := by
  unfold navEffects; infer_instance

/-- A concrete delegate used to witness the general theorems: it records
every call the controller makes. -/
structure TestState where
  numMatches : Nat
  index : Nat
  started : List String
  finished : List String
  confirms : List Bool
  dismissals : Nat
  deriving DecidableEq, Repr

/-- The recording delegate over `TestState`. -/
def testDelegate : PickerDelegate TestState where
  match_count s := s.numMatches
  selected_index s := s.index
  set_selected_index s ix := { s with index := ix }
  start_update_matches s q := { s with started := q :: s.started }
  finish_update_matches s q := { s with finished := q :: s.finished }
  confirm s b := { s with confirms := b :: s.confirms }
  dismissed s := { s with dismissals := s.dismissals + 1 }

/-- A concrete live picker over the recording delegate: 5 matches,
selection at 2. -/
def testPicker : Picker TestState :=
  Picker.new { numMatches := 5, index := 2, started := [], finished := [],
               confirms := [], dismissals := 0 }

/-- A concrete live system around `testPicker`. -/
def testSystem : PickerSystem TestState :=
  { picker := some testPicker, tasks := [], next_task_id := 0 }

/-- The operation's only effect is the single forwarded delegate call `e`:
the controller's pending slot is untouched, and the trace holds no scroll
request, no selection change, no re-render and no delegate read. -/
def forwardOnly (p : Picker σ) (r : Picker σ × List Event) (e : Event) : Prop :=
  r.1.pending_update_matches = p.pending_update_matches ∧
  numScroll r.2 = 0 ∧ numSetSelected r.2 = 0 ∧ numNotify r.2 = 0 ∧
  Event.readMatchCount ∉ r.2 ∧ Event.readSelectedIndex ∉ r.2 ∧
  r.2 = [e]

/-- C1: with `matchCount = n > 0` and `selectedIndex = i`, each navigation
operation calls `set_selected_index` exactly once with the new index and
issues exactly one scroll request to that index, where the new index is
`min (i+1) (n-1)` for `select_next`, `i - 1` saturating at zero for
`select_prev`, `0` for `select_first` and `n - 1` for `select_last`. -/
theorem navigation_moves_selection (D : PickerDelegate σ) (p : Picker σ) (n i : Nat)
    (hn : D.match_count p.delegate = n) (hpos : 0 < n)
    (hi : D.selected_index p.delegate = i) :
    navEffects (select_next D p).2 (min (i + 1) (n - 1)) ∧
    navEffects (select_prev D p).2 (i - 1) ∧
    navEffects (select_first D p).2 0 ∧
    navEffects (select_last D p).2 (n - 1) := by
  subst hn hi
  refine ⟨?_, ?_, ?_, ?_⟩ <;>
    simp [select_next, select_prev, select_first, select_last, navEffects,
      numSetTo, numScrollTo, numSetSelected, numScroll, hpos]

/-- Witness for C1 at `matchCount = 5`, `selectedIndex = 2`. -/
theorem navigation_moves_selection_witness :
    testDelegate.match_count testPicker.delegate = 5 ∧ 0 < 5 ∧
    testDelegate.selected_index testPicker.delegate = 2 ∧
    (navEffects (select_next testDelegate testPicker).2 (min (2 + 1) (5 - 1)) ∧
     navEffects (select_prev testDelegate testPicker).2 (2 - 1) ∧
     navEffects (select_first testDelegate testPicker).2 0 ∧
     navEffects (select_last testDelegate testPicker).2 (5 - 1)) :=
  ⟨rfl, by decide, rfl,
   navigation_moves_selection testDelegate testPicker 5 2 rfl (by decide) rfl⟩

/-- C3: with `matchCount = 0`, each navigation operation only reads the
match count: it does not read the selected index, performs no selection
change, issues no scroll request, and leaves the controller state exactly
as it was. -/
theorem navigation_noop_when_empty (D : PickerDelegate σ) (p : Picker σ)
    (h : D.match_count p.delegate = 0) :
    select_next D p = (p, [Event.readMatchCount]) ∧
    select_prev D p = (p, [Event.readMatchCount]) ∧
    select_first D p = (p, [Event.readMatchCount]) ∧
    select_last D p = (p, [Event.readMatchCount]) := by
  refine ⟨?_, ?_, ?_, ?_⟩ <;>
    simp [select_next, select_prev, select_first, select_last, h]

/-- An empty-match-set picker over the recording delegate. -/
def emptyPicker : Picker TestState :=
  Picker.new { numMatches := 0, index := 0, started := [], finished := [],
               confirms := [], dismissals := 0 }

/-- Witness for C3 at `matchCount = 0`. -/
theorem navigation_noop_when_empty_witness :
    testDelegate.match_count emptyPicker.delegate = 0 ∧
    (select_next testDelegate emptyPicker = (emptyPicker, [Event.readMatchCount]) ∧
     select_prev testDelegate emptyPicker = (emptyPicker, [Event.readMatchCount]) ∧
     select_first testDelegate emptyPicker = (emptyPicker, [Event.readMatchCount]) ∧
     select_last testDelegate emptyPicker = (emptyPicker, [Event.readMatchCount])) :=
  ⟨rfl, navigation_noop_when_empty testDelegate emptyPicker rfl⟩

/-- C5: every `matches_updated` refresh performs exactly these steps in
this order: read the delegate's selected index, request a scroll to that
index, set the pending slot to `none`, signal a re-render; it changes
nothing else (the delegate state is untouched). -/
theorem matches_updated_steps (D : PickerDelegate σ) (p : Picker σ) :
    (matches_updated D p).2 =
      [Event.readSelectedIndex, Event.scrollToItem (D.selected_index p.delegate),
       Event.clearPending, Event.notify] ∧
    (matches_updated D p).1.pending_update_matches = none ∧
    (matches_updated D p).1.delegate = p.delegate :=
  ⟨rfl, rfl, rfl⟩

/-- C7: `confirm` calls `Delegate::confirm` exactly once with
`secondary = false`, `secondary_confirm` exactly once with
`secondary = true`; the singleton traces show neither performs any other
delegate operation. -/
theorem confirm_forwards (D : PickerDelegate σ) (p : Picker σ) :
    (confirm D p).2 = [Event.delegateConfirm false] ∧
    (confirm D p).1.delegate = D.confirm p.delegate false ∧
    (secondary_confirm D p).2 = [Event.delegateConfirm true] ∧
    (secondary_confirm D p).1.delegate = D.confirm p.delegate true :=
  ⟨rfl, rfl, rfl, rfl⟩

/-- C8: `cancel` calls `Delegate::dismissed` exactly once; the singleton
trace shows it performs no other delegate operation. -/
theorem cancel_forwards (D : PickerDelegate σ) (p : Picker σ) :
    (cancel D p).2 = [Event.delegateDismissed] ∧
    (cancel D p).1.delegate = D.dismissed p.delegate :=
  ⟨rfl, rfl⟩

/-- C10: `confirm`, `secondary_confirm` and `cancel` leave all
controller-owned state unchanged — the pending slot is untouched, no
scroll request is issued, no delegate read or selection change occurs —
and their only effect is the single forwarded delegate call. -/
theorem confirm_cancel_frame (D : PickerDelegate σ) (p : Picker σ) :
    forwardOnly p (confirm D p) (Event.delegateConfirm false) ∧
    forwardOnly p (secondary_confirm D p) (Event.delegateConfirm true) ∧
    forwardOnly p (cancel D p) Event.delegateDismissed := by
  refine ⟨?_, ?_, ?_⟩ <;>
    simp [forwardOnly, confirm, secondary_confirm, cancel,
      numScroll, numSetSelected, numNotify]

theorem nat_beq_succ_self (n : Nat) : ((n + 1 : Nat) == n) = false :=
  beq_eq_false_iff_ne.mpr (Nat.succ_ne_self n)

theorem nat_beq_self_succ (n : Nat) : ((n : Nat) == n + 1) = false :=
  beq_eq_false_iff_ne.mpr fun h => Nat.succ_ne_self n h.symm

/-- Resolving the head in-flight task while the controller is live:
the delegate finishes its computation, then the continuation runs a
`matches_updated` refresh. -/
theorem resolve_head_live (D : PickerDelegate σ) (p : Picker σ) (tid : Nat) (q : String)
    (tks : List (Nat × String)) (n : Nat) :
    resolve_task D { picker := some p, tasks := (tid, q) :: tks, next_task_id := n } tid =
      some ({ picker := some ⟨D.finish_update_matches p.delegate q, none⟩,
              tasks := tks.filter (fun t => t.1 != tid), next_task_id := n },
            [Event.readSelectedIndex,
             Event.scrollToItem (D.selected_index (D.finish_update_matches p.delegate q)),
             Event.clearPending, Event.notify]) := by
  simp [resolve_task, matches_updated]

/-- A head task with a different id is skipped by `resolve_task` and
survives in the registry. -/
theorem resolve_skip_head (D : PickerDelegate σ) (pk : Option (Picker σ)) (a tid : Nat)
    (qa : String) (tks : List (Nat × String)) (n : Nat) (h : (a == tid) = false) :
    resolve_task D { picker := pk, tasks := (a, qa) :: tks, next_task_id := n } tid =
      (resolve_task D { picker := pk, tasks := tks, next_task_id := n } tid).map
        (fun r => ({ r.1 with tasks := (a, qa) :: r.1.tasks }, r.2)) := by
  unfold resolve_task
  cases hf : tks.find? (fun t => t.1 == tid) with
  | none => simp [List.find?, h, hf]
  | some tq =>
    cases pk with
    | none => simp [List.find?, h, hf, List.filter_cons, beq_eq_false_iff_ne.mp h]
    | some p => simp [List.find?, h, hf, List.filter_cons, beq_eq_false_iff_ne.mp h]

/-- C2: a query change performs exactly one synchronous refresh, whose
events all precede the registration of the task as `pendingUpdate` (the
trace ends with the registration), and when that task then resolves with
the controller still live, exactly one further refresh is performed:
two refresh cycles per query change. -/
theorem query_change_two_refreshes (D : PickerDelegate σ) (sys : PickerSystem σ)
    (p : Picker σ) (q : String) (hlive : sys.picker = some p) :
    (update_matches D sys q).2 =
      [Event.delegateUpdateMatches q, Event.readSelectedIndex,
       Event.scrollToItem (D.selected_index (D.start_update_matches p.delegate q)),
       Event.clearPending, Event.notify, Event.registerPending sys.next_task_id] ∧
    numNotify (update_matches D sys q).2 = 1 ∧
    ∃ sys2 ev2,
      resolve_task D (update_matches D sys q).1 sys.next_task_id = some (sys2, ev2) ∧
      numNotify ev2 = 1 := by
  obtain ⟨pk, tks, nid⟩ := sys
  obtain rfl : pk = some p := hlive
  refine ⟨rfl, rfl,
    ⟨{ picker := some ⟨D.finish_update_matches (D.start_update_matches p.delegate q) q, none⟩,
       tasks := tks.filter (fun t => t.1 != nid), next_task_id := nid + 1 },
     [Event.readSelectedIndex,
      Event.scrollToItem
        (D.selected_index (D.finish_update_matches (D.start_update_matches p.delegate q) q)),
      Event.clearPending, Event.notify], ?_, rfl⟩⟩
  show resolve_task D
      { picker := some ⟨D.start_update_matches p.delegate q, some nid⟩,
        tasks := (nid, q) :: tks, next_task_id := nid + 1 } nid = _
  exact resolve_head_live D _ nid q tks (nid + 1)

/-- Witness for C2 on the concrete recording delegate. -/
theorem query_change_two_refreshes_witness :
    testSystem.picker = some testPicker ∧
    ((update_matches testDelegate testSystem "q").2 =
      [Event.delegateUpdateMatches "q", Event.readSelectedIndex,
       Event.scrollToItem
         (testDelegate.selected_index (testDelegate.start_update_matches testPicker.delegate "q")),
       Event.clearPending, Event.notify, Event.registerPending testSystem.next_task_id] ∧
     numNotify (update_matches testDelegate testSystem "q").2 = 1 ∧
     ∃ sys2 ev2,
       resolve_task testDelegate (update_matches testDelegate testSystem "q").1
           testSystem.next_task_id = some (sys2, ev2) ∧
       numNotify ev2 = 1) :=
  ⟨rfl, query_change_two_refreshes testDelegate testSystem testPicker "q" rfl⟩

/-- C4: a second query change issued before the first task resolves does
not cancel the first task — the older task is still in the registry
alongside the new one — and in either resolution order each task runs to
completion (`resolve_task` succeeds) and its completion performs exactly
one refresh. -/
theorem overlapping_updates_both_refresh (D : PickerDelegate σ) (sys : PickerSystem σ)
    (p : Picker σ) (q1 q2 : String) (hlive : sys.picker = some p) :
    (sys.next_task_id, q1) ∈ (update_matches D (update_matches D sys q1).1 q2).1.tasks ∧
    (sys.next_task_id + 1, q2) ∈ (update_matches D (update_matches D sys q1).1 q2).1.tasks ∧
    (∃ s1 e1 s2 e2,
      resolve_task D (update_matches D (update_matches D sys q1).1 q2).1 sys.next_task_id =
        some (s1, e1) ∧ numNotify e1 = 1 ∧
      resolve_task D s1 (sys.next_task_id + 1) = some (s2, e2) ∧ numNotify e2 = 1) ∧
    (∃ s3 e3 s4 e4,
      resolve_task D (update_matches D (update_matches D sys q1).1 q2).1
          (sys.next_task_id + 1) = some (s3, e3) ∧ numNotify e3 = 1 ∧
      resolve_task D s3 sys.next_task_id = some (s4, e4) ∧ numNotify e4 = 1) := by
  obtain ⟨pk, tks, nid⟩ := sys
  obtain rfl : pk = some p := hlive
  have hsys : (update_matches D
        (update_matches D { picker := some p, tasks := tks, next_task_id := nid } q1).1 q2).1 =
      { picker := some ⟨D.start_update_matches (D.start_update_matches p.delegate q1) q2,
                       some (nid + 1)⟩,
        tasks := (nid + 1, q2) :: (nid, q1) :: tks,
        next_task_id := nid + 2 } := rfl
  rw [hsys]
  dsimp only
  refine ⟨by simp, by simp, ?_, ?_⟩
  · have h1 : resolve_task D
        { picker := some ⟨D.start_update_matches (D.start_update_matches p.delegate q1) q2,
                         some (nid + 1)⟩,
          tasks := (nid + 1, q2) :: (nid, q1) :: tks, next_task_id := nid + 2 } nid =
        some ({ picker := some ⟨D.finish_update_matches
                  (D.start_update_matches (D.start_update_matches p.delegate q1) q2) q1, none⟩,
                tasks := (nid + 1, q2) :: tks.filter (fun t => t.1 != nid),
                next_task_id := nid + 2 },
              [Event.readSelectedIndex,
               Event.scrollToItem (D.selected_index (D.finish_update_matches
                 (D.start_update_matches (D.start_update_matches p.delegate q1) q2) q1)),
               Event.clearPending, Event.notify]) := by
      rw [resolve_skip_head D _ (nid + 1) nid q2 ((nid, q1) :: tks) (nid + 2)
        (nat_beq_succ_self nid), resolve_head_live]
      rfl
    have h2 := resolve_head_live D
      (⟨D.finish_update_matches
          (D.start_update_matches (D.start_update_matches p.delegate q1) q2) q1, none⟩ :
        Picker σ)
      (nid + 1) q2 (tks.filter (fun t => t.1 != nid)) (nid + 2)
    exact ⟨_, _, _, _, h1, rfl, h2, rfl⟩
  · have h3 := resolve_head_live D
      (⟨D.start_update_matches (D.start_update_matches p.delegate q1) q2,
        some (nid + 1)⟩ : Picker σ)
      (nid + 1) q2 ((nid, q1) :: tks) (nid + 2)
    have hfil : ((nid, q1) :: tks).filter (fun t => t.1 != (nid + 1)) =
        (nid, q1) :: tks.filter (fun t => t.1 != (nid + 1)) := by
      simp [List.filter_cons, bne, nat_beq_self_succ]
    rw [hfil] at h3
    have h4 := resolve_head_live D
      (⟨D.finish_update_matches
          (D.start_update_matches (D.start_update_matches p.delegate q1) q2) q2, none⟩ :
        Picker σ)
      nid q1 (tks.filter (fun t => t.1 != (nid + 1))) (nid + 2)
    exact ⟨_, _, _, _, h3, rfl, h4, rfl⟩

/-- Witness for C4 on the concrete recording delegate. -/
theorem overlapping_updates_both_refresh_witness :
    testSystem.picker = some testPicker ∧
    ((testSystem.next_task_id, "a") ∈
       (update_matches testDelegate
         (update_matches testDelegate testSystem "a").1 "b").1.tasks ∧
     (testSystem.next_task_id + 1, "b") ∈
       (update_matches testDelegate
         (update_matches testDelegate testSystem "a").1 "b").1.tasks ∧
     (∃ s1 e1 s2 e2,
       resolve_task testDelegate
           (update_matches testDelegate
             (update_matches testDelegate testSystem "a").1 "b").1
           testSystem.next_task_id = some (s1, e1) ∧ numNotify e1 = 1 ∧
       resolve_task testDelegate s1 (testSystem.next_task_id + 1) = some (s2, e2) ∧
       numNotify e2 = 1) ∧
     (∃ s3 e3 s4 e4,
       resolve_task testDelegate
           (update_matches testDelegate
             (update_matches testDelegate testSystem "a").1 "b").1
           (testSystem.next_task_id + 1) = some (s3, e3) ∧ numNotify e3 = 1 ∧
       resolve_task testDelegate s3 testSystem.next_task_id = some (s4, e4) ∧
       numNotify e4 = 1)) :=
  ⟨rfl, overlapping_updates_both_refresh testDelegate testSystem testPicker "a" "b" rfl⟩

/-- C6: if the controller has been destroyed before an in-flight task
resolves, resolving that task succeeds (no error is surfaced) with an
empty trace: no refresh, no delegate call, no effect beyond the task
leaving the registry. -/
theorem dead_controller_discards (D : PickerDelegate σ) (sys : PickerSystem σ)
    (tid : Nat) (tq : Nat × String) (hdead : sys.picker = none)
    (hfound : sys.tasks.find? (fun t => t.1 == tid) = some tq) :
    resolve_task D sys tid =
      some ({ sys with tasks := sys.tasks.filter (fun t => t.1 != tid) }, []) := by
  simp [resolve_task, hfound, hdead]

/-- A destroyed controller with one task still in flight. -/
def deadSystem : PickerSystem TestState :=
  { picker := none, tasks := [(0, "q")], next_task_id := 1 }

/-- Witness for C6 on the destroyed concrete system. -/
theorem dead_controller_discards_witness :
    deadSystem.picker = none ∧
    deadSystem.tasks.find? (fun t => t.1 == 0) = some (0, "q") ∧
    resolve_task testDelegate deadSystem 0 =
      some ({ deadSystem with tasks := deadSystem.tasks.filter (fun t => t.1 != 0) }, []) :=
  ⟨rfl, rfl, dead_controller_discards testDelegate deadSystem 0 (0, "q") rfl rfl⟩

/-- C9: the pending slot is `none` in a fresh controller and after any
completion refresh that finds the controller live, but immediately after
the synchronous portion of `update_matches` it is `some` of the id of the
just-started task — the `none` written by the synchronous refresh is
unconditionally overwritten by the registration — and the newest task sits
at the head of the registry, so the single tracked handle is always the
most recently started task. -/
theorem pending_slot_tracks_newest (D : PickerDelegate σ) (d : σ)
    (sys : PickerSystem σ) (p : Picker σ) (q : String)
    (hlive : sys.picker = some p) :
    (Picker.new d).pending_update_matches = none ∧
    (matches_updated D p).1.pending_update_matches = none ∧
    (∃ p2, (update_matches D sys q).1.picker = some p2 ∧
       p2.pending_update_matches = some sys.next_task_id) ∧
    (update_matches D sys q).1.tasks.head? = some (sys.next_task_id, q) ∧
    (∀ sys2 ev2 tid p3, resolve_task D sys tid = some (sys2, ev2) →
       sys2.picker = some p3 → p3.pending_update_matches = none) := by
  obtain ⟨pk, tks, nid⟩ := sys
  obtain rfl : pk = some p := hlive
  refine ⟨rfl, rfl, ⟨_, rfl, rfl⟩, rfl, ?_⟩
  intro sys2 ev2 tid p3 hres hp3
  unfold resolve_task at hres
  cases hf : List.find? (fun t => t.1 == tid) tks with
  | none => rw [hf] at hres; exact absurd hres (by simp)
  | some tq =>
    rw [hf] at hres
    simp only [Option.some.injEq] at hres
    obtain ⟨rfl, rfl⟩ := Prod.mk.injEq .. ▸ hres
    simp only [matches_updated] at hp3 ⊢
    cases hp3
    rfl

/-- Witness for C9 on the concrete recording delegate. -/
theorem pending_slot_tracks_newest_witness :
    testSystem.picker = some testPicker ∧
    ((Picker.new testPicker.delegate).pending_update_matches = none ∧
     (matches_updated testDelegate testPicker).1.pending_update_matches = none ∧
     (∃ p2, (update_matches testDelegate testSystem "q").1.picker = some p2 ∧
        p2.pending_update_matches = some testSystem.next_task_id) ∧
     (update_matches testDelegate testSystem "q").1.tasks.head? =
       some (testSystem.next_task_id, "q") ∧
     (∀ sys2 ev2 tid p3, resolve_task testDelegate testSystem tid = some (sys2, ev2) →
        sys2.picker = some p3 → p3.pending_update_matches = none)) :=
  ⟨rfl, pending_slot_tracks_newest testDelegate testPicker.delegate testSystem
    testPicker "q" rfl⟩

end Picker2
